import Mathlib

/-!
Verification of the restaurant-concierge core (gateway + agent runtime +
tool dispatcher) against its specification.

Shallow embedding notes:
* JavaScript numbers that carry prices/quantities are modelled as `Rat`;
  `Date.now()` (milliseconds) as `Nat`.
* The JS `Map`s (`Gateway.sessions`, `AgentRuntime.conversations`) are
  modelled as functional maps `String → Option _`.
* Thrown JS exceptions are modelled by `Except JsThrown _`; `JsThrown`
  distinguishes `new Error(msg)` (`genericError`) from a `TypeError`
  raised by dereferencing `undefined` (`typeError`).
* File-backed stores (`data/orders/*.json`) and the console notification
  produced by `escalate` are modelled as lists inside `ToolState`.
* All `Date.now()` reads within one tool execution/turn observe the same
  clock value `ToolState.now` (one-millisecond granularity, which is the
  case the uniqueness claims are about).
-/

deriving instance DecidableEq for Except

namespace Concierge

/-- Functional update of a string-keyed map (models `Map.prototype.set`). -/
def mapUpdate {β : Type} (m : String → Option β) (k : String) (v : β) : String → Option β :=
  fun q => if q = k then some v else m q

/-- JS template-literal rendering of a possibly-`undefined` string value:
interpolating `undefined` produces the text "undefined". -/
def optStr : Option String → String
  | some s => s
  | none => "undefined"

/-- Rendering of a JS number inside a template literal. Integer values render
exactly; non-integers are approximated as `num/den` (no theorem in this file
depends on the rendering of a non-integer number). -/
def numToStr (q : Rat) : String :=
  if q.den = 1 then toString q.num
  else toString q.num ++ "/" ++ toString q.den

/-- Substring occurrence on character lists (models `String.prototype.includes`). -/
def listContainsSub (s p : List Char) : Bool :=
  match s with
  | [] => p.isPrefixOf ([] : List Char)
  | _ :: rest => p.isPrefixOf s || listContainsSub rest p

/-- String-level `includes`. -/
def strContains (s sub : String) : Bool :=
  listContainsSub s.data sub.data

/-- Digits of a decimal numeral folded to a natural number. -/
def digitsVal (ds : List Char) : Nat :=
  ds.foldl (fun a c => a * 10 + (c.toNat - 48)) 0

/-- `parseFloat` restricted to its use site in `takeOrder`: the input has
already been stripped to the characters `[0-9.]`, so only a leading
`digits [ '.' digits ]` numeral is relevant. Returns `none` for NaN. -/
def parseFloatStripped (cs : List Char) : Option Rat :=
  let intPart := cs.takeWhile Char.isDigit
  let rest := cs.drop intPart.length
  match rest with
  | '.' :: rest2 =>
    let fracPart := rest2.takeWhile Char.isDigit
    if intPart.isEmpty && fracPart.isEmpty then none
    else some ((digitsVal intPart : Rat) + (digitsVal fracPart : Rat) / ((10 : Rat) ^ fracPart.length))
  | _ => if intPart.isEmpty then none else some ((digitsVal intPart : Rat))

/-- The regex strip `price.replace(/[^0-9.]/g, '')` from `takeOrder`. -/
def stripNonNumeric (s : String) : List Char :=
  s.data.filter (fun c => c.isDigit || c = '.')

/-- JS `String.prototype.replace` with a *string* pattern: replaces only the
first occurrence of `pat` in `s` by `rep` (used by `WhatsAppChannel.send`). -/
def jsReplaceFirst (s pat rep : List Char) : List Char :=
  match s with
  | [] => if pat.isPrefixOf ([] : List Char) then rep else []
  | c :: rest =>
    if pat.isPrefixOf (c :: rest) then rep ++ (c :: rest).drop pat.length
    else c :: jsReplaceFirst rest pat rep

/-- Split at every '-' or em-dash, as in `s.split(/[-—]/)` (`getMenu`). -/
def splitDash (cs : List Char) : List (List Char) :=
  match cs with
  | [] => [[]]
  | c :: rest =>
    let tail := splitDash rest
    if c = '-' || c = '—' then [] :: tail
    else match tail with
      | [] => [[c]]
      | t :: ts => (c :: t) :: ts

/-- A thrown JS exception as observable at the `execute` boundary. -/
inductive JsThrown where
  /-- `throw new Error(msg)` — the generic `Error` class. -/
  | genericError (msg : String)
  /-- A `TypeError` from dereferencing `undefined` (property read). -/
  | typeError (msg : String)
deriving DecidableEq, Repr

/-- `config/business.json` contents (flattened `location`/`contact` objects). -/
structure BusinessConfig where
  name : String
  btype : String
  hours : String
  locationAddress : String
  locationCity : String
  googleMapsUrl : String
  contactPhone : String
  contactEmail : Option String
  services : List String
  description : Option String
deriving DecidableEq, Repr

/-- Defaults used by `loadBusinessConfig` when no config file exists. -/
def defaultBusinessConfig : BusinessConfig :=
  { name := "Restaurant", btype := "restaurant", hours := "Not configured",
    locationAddress := "", locationCity := "", googleMapsUrl := "",
    contactPhone := "", contactEmail := none, services := [], description := none }

/-- A booking record as built by `createBooking`. `createdAt` is the clock
value that the source formats as an ISO string. -/
structure Booking where
  id : String
  date : String
  time : String
  guests : Rat
  name : String
  phone : String
  notes : String
  status : String
  createdAt : Nat
deriving DecidableEq, Repr

/-- One line of an order after price coercion (`takeOrder`'s item map). -/
structure OrderItem where
  name : String
  quantity : Rat
  price : Rat
  total : Rat
deriving DecidableEq, Repr

/-- An order record as built by `takeOrder`. -/
structure Order where
  id : String
  items : List OrderItem
  total : Rat
  customerName : Option String
  customerPhone : Option String
  delivery : Bool
  address : String
  status : String
  createdAt : Nat
deriving DecidableEq, Repr

/-- A complaint record as built by `handleComplaint`. -/
structure Complaint where
  id : String
  customerName : Option String
  customerPhone : Option String
  issue : String
  urgency : String
  status : String
  createdAt : Nat
deriving DecidableEq, Repr

/-- An escalation record as built by `escalate`. -/
structure Escalation where
  id : String
  reason : String
  customerInfo : String
  details : String
  status : String
  createdAt : Nat
deriving DecidableEq, Repr

/-- A feedback record as built by `collectFeedback`. -/
structure Feedback where
  id : String
  customerName : Option String
  rating : Rat
  comment : String
  createdAt : Nat
deriving DecidableEq, Repr

/-- One parsed menu entry (`getMenu`'s `{name, price}`). -/
structure MenuItem where
  name : String
  price : String
deriving DecidableEq, Repr

/-- One line of a `calculatePrice` breakdown. -/
structure PriceLine where
  name : String
  quantity : Rat
  unitPrice : Rat
  subtotal : Rat
deriving DecidableEq, Repr

/-- The `data` object of `getBusinessInfo`'s result. -/
structure BusinessInfoData where
  name : String
  btype : String
  hours : String
  locationAddress : String
  locationCity : String
  googleMapsUrl : String
  contactPhone : String
  contactEmail : Option String
  description : Option String
deriving DecidableEq, Repr

/-- The tool-specific `data` payload of a ToolResult. -/
inductive ToolData where
  | info (d : BusinessInfoData)
  | menu (items : List MenuItem) (count : Nat)
  | avail (available : Bool) (date time : String) (guests : Rat) (message : String)
  | booked (b : Booking) (message : String)
  | ordered (o : Order) (message : String)
  | directions (address city mapsUrl message : String)
  | complaintRec (c : Complaint) (message : String)
  | feedback (f : Feedback) (message : String)
  | escalated (e : Escalation) (message : String)
  | knowledge (query : String) (results : List (String × String)) (message : String)
  | priced (breakdown : List PriceLine) (total : Rat) (message : String)
deriving DecidableEq, Repr

/-- The result object returned by every tool implementation. -/
structure ToolResult where
  success : Bool
  data : ToolData
deriving DecidableEq, Repr

/-- The `price` field of a `take_order` item as received from JSON: a number,
a string (handled by the regex-strip branch), or absent (`undefined` — the
schema marks `price` optional). -/
inductive PriceField where
  | num (q : Rat)
  | str (s : String)
  | absent
deriving DecidableEq, Repr

/-- One element of `args.items` (shared by `take_order`, whose schema requires
`name` and `quantity`, and `calculate_price`, whose schema also requires
`unitPrice`). Fields a schema marks required are modelled as present; the
optional `price` keeps its three JSON possibilities. -/
structure ItemArg where
  name : String := ""
  quantity : Rat := 0
  price : PriceField := .absent
  unitPrice : Rat := 0
deriving DecidableEq, Repr

/-- The parsed JSON argument object handed to `execute`. Fields that are
optional in every schema that mentions them are `Option`s (absent =
`undefined`); fields required by every schema that mentions them are plain. -/
structure Args where
  category : Option String := none
  date : String := ""
  time : String := ""
  guests : Rat := 0
  name : String := ""
  phone : String := ""
  notes : Option String := none
  items : List ItemArg := []
  customerName : Option String := none
  customerPhone : Option String := none
  delivery : Option Bool := none
  address : Option String := none
  issue : String := ""
  urgency : Option String := none
  rating : Rat := 0
  comment : Option String := none
  reason : String := ""
  customerInfo : Option String := none
  details : Option String := none
  query : String := ""
deriving DecidableEq, Repr

/-- The mutable state a ToolExecutor touches: the clock, the loaded business
config (plus the on-disk file it is reloaded from), the three file-backed
stores, the console escalation notifications, and the knowledge files. -/
structure ToolState where
  now : Nat := 0
  configFile : Option BusinessConfig := none
  businessConfig : BusinessConfig := defaultBusinessConfig
  bookings : List Booking := []
  orders : List Order := []
  complaints : List Complaint := []
  escalationLog : List Escalation := []
  knowledgeFiles : List (String × String) := []
deriving DecidableEq, Repr

/-- `loadBusinessConfig`: reload from `config/business.json`, defaulting when
the file is missing. -/
def loadBusinessConfig (ts : ToolState) : ToolState :=
  { ts with businessConfig := ts.configFile.getD defaultBusinessConfig }

/-- The names of the eleven registered tools, in `toolDefinitions` order
(which coincides with the dispatch switch in `execute`). -/
def registeredToolNames : List String :=
  ["get_business_info", "get_menu", "check_availability", "create_booking",
   "take_order", "get_directions", "handle_complaint", "collect_feedback",
   "escalate", "search_knowledge", "calculate_price"]

/-- `getBusinessInfo`. -/
def getBusinessInfo (ts : ToolState) : ToolResult :=
  let cfg := ts.businessConfig
  ⟨true, .info { name := cfg.name, btype := cfg.btype, hours := cfg.hours,
                 locationAddress := cfg.locationAddress, locationCity := cfg.locationCity,
                 googleMapsUrl := cfg.googleMapsUrl, contactPhone := cfg.contactPhone,
                 contactEmail := cfg.contactEmail, description := cfg.description }⟩

/-- `getMenu`'s per-service parse: split on dashes, `parts[0]?.trim() || s`
for the name, `parts[1]?.trim() || 'TBD'` for the price. -/
def parseMenuItem (s : String) : MenuItem :=
  let parts := (splitDash s.data).map (fun cs => (String.mk cs).trim)
  let nm := match parts.get? 0 with
    | some t => if t = "" then s else t
    | none => s
  let pr := match parts.get? 1 with
    | some t => if t = "" then "TBD" else t
    | none => "TBD"
  ⟨nm, pr⟩

/-- `getMenu`: parse services, then filter when `category` is truthy
(JS: `if (category)` — the empty string is falsy and skips the filter). -/
def getMenu (category : Option String) (ts : ToolState) : ToolResult :=
  let menu := ts.businessConfig.services.map parseMenuItem
  let menu := match category with
    | some cat => if cat = "" then menu
        else menu.filter (fun it => strContains it.name.toLower cat.toLower)
    | none => menu
  ⟨true, .menu menu menu.length⟩

/-- `checkAvailability`: a static always-available stub. -/
def checkAvailability (date time : String) (guests : Rat) : ToolResult :=
  ⟨true, .avail true date time guests
    ("Great news! We have availability for " ++ numToStr guests ++ " guests on "
      ++ date ++ " at " ++ time ++ ".")⟩

/-- The confirmation message built by `createBooking`. -/
def bookingMessage (b : Booking) : String :=
  "✅ Booking confirmed for " ++ b.name ++ " on " ++ b.date ++ " at " ++ b.time
    ++ " for " ++ numToStr b.guests ++ " guests. Confirmation sent to " ++ b.phone ++ "."

/-- `createBooking`: id is the bare millisecond clock (`BK-` + `Date.now()`),
status `confirmed`, appended to the bookings store by `saveBooking`. -/
def createBooking (args : Args) (ts : ToolState) : ToolResult × ToolState :=
  let b : Booking :=
    { id := "BK-" ++ toString ts.now, date := args.date, time := args.time,
      guests := args.guests, name := args.name, phone := args.phone,
      notes := args.notes.getD "", status := "confirmed", createdAt := ts.now }
  (⟨true, .booked b (bookingMessage b)⟩, { ts with bookings := ts.bookings ++ [b] })

/-- The price coercion in `takeOrder`'s item map:
`typeof price === 'number' ? price : parseFloat(price.replace(/[^0-9.]/g, '')) || 0`.
When `price` is absent (`undefined`), the `.replace` dereference throws. -/
def coercePrice : PriceField → Except JsThrown Rat
  | .num q => .ok q
  | .str s => .ok ((parseFloatStripped (stripNonNumeric s)).getD 0)
  | .absent => .error (.typeError "Cannot read properties of undefined (reading \x27replace\x27)")

/-- `takeOrder`'s `items.map(...)`: left-to-right, aborting at the first
throwing element. -/
def mapOrderItems : List ItemArg → Except JsThrown (List OrderItem)
  | [] => .ok []
  | it :: rest => do
    let p ← coercePrice it.price
    let tail ← mapOrderItems rest
    pure ({ name := it.name, quantity := it.quantity, price := p, total := p * it.quantity } :: tail)

/-- The confirmation message built by `takeOrder`. -/
def orderMessage (o : Order) : String :=
  "📦 Order #" ++ o.id ++ " received!\n\n"
    ++ String.intercalate "\n" (o.items.map (fun i =>
         "• " ++ numToStr i.quantity ++ "x " ++ i.name ++ " - R" ++ numToStr i.total))
    ++ "\n\nTotal: R" ++ numToStr o.total ++ "\n\n"
    ++ (if o.delivery then "🚚 Delivery to: " ++ o.address else "🏠 Pickup")
    ++ "\n\nWe\x27ll confirm when ready!"

/-- `takeOrder`: coerce prices, total the lines, id `ORD-` + `Date.now()`,
status `pending`, appended to the orders store by `saveOrder`. -/
def takeOrder (args : Args) (ts : ToolState) : Except JsThrown (ToolResult × ToolState) := do
  let orderItems ← mapOrderItems args.items
  let total := (orderItems.map OrderItem.total).sum
  let o : Order :=
    { id := "ORD-" ++ toString ts.now, items := orderItems, total := total,
      customerName := args.customerName, customerPhone := args.customerPhone,
      delivery := args.delivery.getD false, address := args.address.getD "",
      status := "pending", createdAt := ts.now }
  pure (⟨true, .ordered o (orderMessage o)⟩, { ts with orders := ts.orders ++ [o] })

/-- Approximation of `encodeURIComponent`: only the space character is
percent-encoded. No theorem in this file depends on this rendering. -/
def encodeURIComponentApprox (s : String) : String :=
  String.join (s.data.map (fun c => if c = ' ' then "%20" else String.mk [c]))

/-- `getDirections` (the `||` fallback fires on a missing or empty URL). -/
def getDirections (ts : ToolState) : ToolResult :=
  let cfg := ts.businessConfig
  let mapsUrl :=
    if cfg.googleMapsUrl = "" then
      "https://www.google.com/maps/search/"
        ++ encodeURIComponentApprox (cfg.name ++ " " ++ cfg.locationAddress)
    else cfg.googleMapsUrl
  ⟨true, .directions cfg.locationAddress cfg.locationCity mapsUrl
    ("📍 " ++ cfg.name ++ "\n" ++ cfg.locationAddress ++ ", " ++ cfg.locationCity
      ++ "\n\n[Open in Google Maps](" ++ mapsUrl ++ ")")⟩

/-- The message `escalate` returns. -/
def escalateMessageText : String :=
  "⚠️ Your concern has been escalated to our management team. They will contact you as soon as possible."

/-- `escalate`: id `ESC-` + `Date.now()`, status `pending`; the owner
notification (a console log in the source) is recorded in `escalationLog`.
Nothing is written to a durable store. -/
def escalate (args : Args) (ts : ToolState) : ToolResult × ToolState :=
  let e : Escalation :=
    { id := "ESC-" ++ toString ts.now, reason := args.reason,
      customerInfo := args.customerInfo.getD "", details := args.details.getD "",
      status := "pending", createdAt := ts.now }
  (⟨true, .escalated e escalateMessageText⟩, { ts with escalationLog := ts.escalationLog ++ [e] })

/-- The high-urgency complaint acknowledgement (escalation notice). -/
def escalationNoticeText (phone : Option String) : String :=
  "⚠️ I\x27ve escalated your concern to our management. We\x27ll contact you shortly at "
    ++ optStr phone ++ "."

/-- The non-high-urgency complaint acknowledgement. -/
def complaintAcknowledgementText : String :=
  "I\x27m truly sorry about your experience. I\x27ve logged your feedback and we\x27ll use it to improve. Thank you for letting us know."

/-- `handleComplaint`: record with status `open` and id `CMPL-` + `Date.now()`,
save it, build the urgency-dependent message, and for `high` urgency also run
`escalate` before returning the response. -/
def handleComplaint (args : Args) (ts : ToolState) : ToolResult × ToolState :=
  let urgency := args.urgency.getD "medium"
  let c : Complaint :=
    { id := "CMPL-" ++ toString ts.now, customerName := args.customerName,
      customerPhone := args.customerPhone, issue := args.issue, urgency := urgency,
      status := "open", createdAt := ts.now }
  let ts1 := { ts with complaints := ts.complaints ++ [c] }
  let response : ToolResult :=
    ⟨true, .complaintRec c
      (if urgency = "high" then escalationNoticeText args.customerPhone
       else complaintAcknowledgementText)⟩
  let ts2 :=
    if urgency = "high" then
      (escalate { reason := "Customer complaint: " ++ args.issue,
                  customerInfo := some (optStr args.customerName ++ " - " ++ optStr args.customerPhone),
                  details := some ("Urgency: " ++ urgency) } ts1).2
    else ts1
  (response, ts2)

/-- `collectFeedback`: computes a record and a message; nothing is persisted. -/
def collectFeedback (args : Args) (ts : ToolState) : ToolResult :=
  let comment := args.comment.getD ""
  let f : Feedback :=
    { id := "FB-" ++ toString ts.now, customerName := args.customerName,
      rating := args.rating, comment := comment, createdAt := ts.now }
  ⟨true, .feedback f
    ("Thank you for your feedback! "
      ++ String.join (List.replicate (Rat.floor args.rating).toNat "⭐")
      ++ " (" ++ numToStr args.rating ++ "/5)\n\n"
      ++ (if comment = "" then "" else "Your comment: \"" ++ comment ++ "\"")
      ++ "\n\nWe appreciate your business!")⟩

/-- `searchKnowledge`: scan `.md` knowledge files for a case-insensitive
substring match, keeping the first 500 characters of each hit. -/
def searchKnowledge (query : String) (ts : ToolState) : ToolResult :=
  let results := (ts.knowledgeFiles.filter (fun f =>
      f.1.endsWith ".md" && strContains f.2.toLower query.toLower)).map
    (fun f => (f.1, String.mk (f.2.data.take 500)))
  ⟨true, .knowledge query results
    (if results.length > 0 then
      "Found " ++ toString results.length ++ " result(s) for \"" ++ query ++ "\""
     else
      "No specific information found for \"" ++ query ++ "\". Please contact us directly.")⟩

/-- `calculatePrice`: pure per-line subtotal and total. -/
def calculatePrice (items : List ItemArg) : ToolResult :=
  let breakdown := items.map (fun it =>
    { name := it.name, quantity := it.quantity, unitPrice := it.unitPrice,
      subtotal := it.quantity * it.unitPrice : PriceLine })
  let total := (breakdown.map PriceLine.subtotal).sum
  ⟨true, .priced breakdown total
    (String.intercalate "\n" (breakdown.map (fun i =>
        "• " ++ numToStr i.quantity ++ "x " ++ i.name ++ " = R" ++ numToStr i.subtotal))
      ++ "\n\nTotal: R" ++ numToStr total)⟩

/-- `ToolExecutor.execute`: reload config, then dispatch on the tool name;
the switch default throws the generic `new Error('Unknown tool: ' + name)`. -/
def execute (toolName : String) (args : Args) (ts0 : ToolState) :
    Except JsThrown (ToolResult × ToolState) :=
  let ts := loadBusinessConfig ts0
  if toolName = "get_business_info" then .ok (getBusinessInfo ts, ts)
  else if toolName = "get_menu" then .ok (getMenu args.category ts, ts)
  else if toolName = "check_availability" then .ok (checkAvailability args.date args.time args.guests, ts)
  else if toolName = "create_booking" then .ok (createBooking args ts)
  else if toolName = "take_order" then takeOrder args ts
  else if toolName = "get_directions" then .ok (getDirections ts, ts)
  else if toolName = "handle_complaint" then .ok (handleComplaint args ts)
  else if toolName = "collect_feedback" then .ok (collectFeedback args ts, ts)
  else if toolName = "escalate" then .ok (escalate args ts)
  else if toolName = "search_knowledge" then .ok (searchKnowledge args.query ts, ts)
  else if toolName = "calculate_price" then .ok (calculatePrice args.items, ts)
  else .error (.genericError ("Unknown tool: " ++ toolName))

/-- Schema conformance of a `take_order` item: `name` and `quantity` are
required (present in the model by construction) and `price`, when present,
must be a number — i.e. everything except the string case. -/
def itemSchemaConformant (it : ItemArg) : Bool :=
  match it.price with
  | .str _ => false
  | _ => true

/-- Schema conformance of a full `take_order` payload: conformant items plus
the required `customerName` and `customerPhone`. -/
def takeOrderArgsConformant (args : Args) : Bool :=
  args.items.all itemSchemaConformant && args.customerName.isSome && args.customerPhone.isSome

/-! ### Agent runtime (`AgentRuntime`, `src/agent/runtime.js`) -/

/-- `this.maxToolCalls` from the `AgentRuntime` constructor. -/
def maxToolCalls : Nat := 5

/-- One requested tool call from a model response; `arguments` is modelled
already JSON-parsed. -/
structure ToolCall where
  callId : Option String := none
  fnName : String := ""
  fnArguments : Args := {}
deriving DecidableEq, Repr

/-- One LLM response as `llm.chat` delivers it to `handleMessage`:
`content` may be null, `toolCalls` may be null or an array (note: in JS an
*empty* array is truthy for the loop condition, hence `Option (List _)`). -/
structure LMResponse where
  content : Option String
  toolCalls : Option (List ToolCall)
deriving DecidableEq, Repr

/-- What one turn of `handleMessage`'s try block produces: the final response
(or the exception that escaped to the catch), the tool state after all tool
executions that did run, and the counts of model calls issued and of
completed tool rounds (`toolCallCount`). -/
structure TurnOutcome where
  result : Except JsThrown (Option String)
  toolState : ToolState
  modelCalls : Nat
  rounds : Nat
deriving Repr

/-- Sequential execution of one response's tool calls (the `for` loop inside
the while body): left to right, a thrown exception aborts the turn. In every
throwing path of `execute` the store state is unchanged by the failing call. -/
def execAll : List ToolCall → ToolState → Except JsThrown Unit × ToolState
  | [], ts => (.ok (), ts)
  | tc :: rest, ts =>
    match execute tc.fnName tc.fnArguments ts with
    | .error e => (.error e, ts)
    | .ok (_, ts1) => execAll rest ts1

/-- The `while (response.toolCalls && toolCallCount < this.maxToolCalls)` loop.
`fuel` stands for `maxToolCalls - toolCallCount`, so `fuel = 0` is exactly the
loop-bound exit; `tc`/`finalC` are the current `response.toolCalls` and
`finalResponse`; `calls` counts model calls issued so far; `count` is
`toolCallCount`. The `llm` oracle maps the index of a model call (0-based)
to its outcome. -/
def runRounds (llm : Nat → Except JsThrown LMResponse) :
    Nat → Option (List ToolCall) → Option String → Nat → Nat → ToolState → TurnOutcome
  | 0, _tc, finalC, calls, count, ts => ⟨.ok finalC, ts, calls, count⟩
  | _fuel + 1, none, finalC, calls, count, ts => ⟨.ok finalC, ts, calls, count⟩
  | fuel + 1, some tcs, _finalC, calls, count, ts =>
    match execAll tcs ts with
    | (.error e, ts1) => ⟨.error e, ts1, calls, count⟩
    | (.ok _, ts1) =>
      match llm calls with
      | .error e => ⟨.error e, ts1, calls + 1, count⟩
      | .ok next => runRounds llm fuel next.toolCalls next.content (calls + 1) (count + 1) ts1

/-- The try block of `handleMessage` from the first `llm.chat` call to the
value of `finalResponse`: initial model call, then the bounded tool loop. -/
def runTurn (llm : Nat → Except JsThrown LMResponse) (ts : ToolState) : TurnOutcome :=
  match llm 0 with
  | .error e => ⟨.error e, ts, 1, 0⟩
  | .ok r0 => runRounds llm maxToolCalls r0.toolCalls r0.content 1 0 ts

/-- One stored message (`{role, content, timestamp}`); `content` is `Option`
because a null `finalResponse` is stored as-is. -/
structure HMsg where
  role : String
  content : Option String
  timestamp : Nat
deriving DecidableEq, Repr

/-- `AgentRuntime.saveToHistory`: push the user/assistant pair onto the
session's conversation log, then keep only the last 50 messages
(`messages.slice(-50)` when the length exceeds 50). -/
def saveToHistory (conversations : String → Option (List HMsg))
    (sessionId userMessage : String) (assistantMessage : Option String) (now : Nat) :
    String → Option (List HMsg) :=
  let msgs0 := (conversations sessionId).getD []
  let msgs1 := msgs0 ++ [⟨"user", some userMessage, now⟩, ⟨"assistant", assistantMessage, now⟩]
  let msgs2 := if 50 < msgs1.length then msgs1.drop (msgs1.length - 50) else msgs1
  mapUpdate conversations sessionId msgs2

/-- A message projected for model context (`{role, content}`). -/
structure CtxMsg where
  role : String
  content : Option String
deriving DecidableEq, Repr

/-- `AgentRuntime.getConversationHistory`: the last 10 messages of the
session's conversation log (`messages.slice(-10)`), projected to
`{role, content}`; `[]` when the session is unknown. The limit 10 is fixed
in the source — the function takes no limit parameter. -/
def getConversationHistory (conversations : String → Option (List HMsg))
    (sessionId : String) : List CtxMsg :=
  match conversations sessionId with
  | none => []
  | some msgs => (msgs.drop (msgs.length - 10)).map (fun m => ⟨m.role, m.content⟩)

/-! ### Gateway (`Gateway`, `src/gateway/server.js`) -/

/-- One Gateway session (the value type of `Gateway.sessions`). -/
structure GSession where
  id : String
  messages : List HMsg
  channel : String
  lastActive : Nat
  customerName : Option String
  createdAt : Nat
deriving DecidableEq, Repr

/-- The process state the routing claims touch: the Gateway session map, the
runtime conversation map, the tool state, the registered channel names and
the outbound deliveries performed via channel adapters. Dashboard broadcasts
are modelled separately by `broadcast` below. -/
structure SystemState where
  sessions : String → Option GSession
  conversations : String → Option (List HMsg)
  toolState : ToolState
  channels : List String
  outbox : List (String × String × Option String)

/-- The empty process state. -/
def initialState : SystemState :=
  { sessions := fun _ => none, conversations := fun _ => none,
    toolState := {}, channels := [], outbox := [] }

/-- The message log of one Gateway session (empty when the session does not
exist). -/
def sessionLog (st : SystemState) (sid : String) : List HMsg :=
  match st.sessions sid with
  | some s => s.messages
  | none => []

/-- `Gateway.routeMessage`: create the session lazily, bump `lastActive`,
append the inbound `user` message (the observer broadcast carries the same
event and does not change this state). -/
def routeMessage (channelName sessionId message : String) (senderName : Option String)
    (now : Nat) (st : SystemState) : SystemState :=
  let fresh : GSession :=
    { id := sessionId, messages := [], channel := channelName,
      lastActive := now, customerName := senderName, createdAt := now }
  let s := (st.sessions sessionId).getD fresh
  let s := { s with lastActive := now,
                    messages := s.messages ++ [⟨"user", some message, now⟩] }
  { st with sessions := mapUpdate st.sessions sessionId s }

/-- `Gateway.sendResponse`: append the `assistant` message when the session
exists, then deliver via the channel adapter when one is registered. -/
def sendResponse (channelName sessionId : String) (response : Option String)
    (now : Nat) (st : SystemState) : SystemState :=
  let st :=
    match st.sessions sessionId with
    | some s =>
      let s1 := { s with messages := s.messages ++ [⟨"assistant", response, now⟩] }
      { st with sessions := mapUpdate st.sessions sessionId s1 }
    | none => st
  if channelName ∈ st.channels then
    { st with outbox := st.outbox ++ [(channelName, sessionId, response)] }
  else st

/-- The constant apology of `handleMessage`'s catch branch. -/
def apologyText : String :=
  "I apologize, but I encountered an issue processing your request. Please try again or contact us directly."

/-- `AgentRuntime.handleMessage` after the gateway has routed the message:
run the turn; on success save to the conversation history and send the final
response; on any thrown error send the constant apology (the catch branch
does not touch the conversation history). The `llm` oracle abstracts
`llm.chat` (the composed prompt does not influence the claims proved here);
tool side effects that happened before a failure are kept. -/
def handleMessage (llm : Nat → Except JsThrown LMResponse)
    (channelName sessionId message : String) (now : Nat) (st : SystemState) : SystemState :=
  let turn := runTurn llm st.toolState
  match turn.result with
  | .ok finalResponse =>
    let st := { st with toolState := turn.toolState,
                        conversations := saveToHistory st.conversations sessionId message finalResponse now }
    sendResponse channelName sessionId finalResponse now st
  | .error _ =>
    let st := { st with toolState := turn.toolState }
    sendResponse channelName sessionId (some apologyText) now st

/-- One connected dashboard observer: its socket `readyState` (OPEN = 1) and
whether `client.send` throws for it. -/
structure Client where
  cid : Nat
  readyState : Nat
  sendFails : Bool
deriving DecidableEq, Repr

/-- What a `broadcast` call produces: the deliveries made, the send errors
logged by the catch, and the observer set afterwards. -/
structure BroadcastOutcome where
  delivered : List (Nat × String)
  errorsLogged : List Nat
  clientsAfter : List Client
deriving DecidableEq, Repr

/-- The `for (const client of this.clients)` loop of `Gateway.broadcast`:
skip non-OPEN sockets, try send, catch and log errors. -/
def broadcastRun : List Client → String → List (Nat × String) × List Nat
  | [], _ => ([], [])
  | c :: rest, msg =>
    let tail := broadcastRun rest msg
    if c.readyState = 1 then
      if c.sendFails then (tail.1, c.cid :: tail.2)
      else ((c.cid, msg) :: tail.1, tail.2)
    else tail

/-- `Gateway.broadcast`: fan the event out; the loop never mutates
`this.clients` (clients are removed only by the socket `close` handler). -/
def broadcast (clients : List Client) (msg : String) : BroadcastOutcome :=
  let r := broadcastRun clients msg
  { delivered := r.1, errorsLogged := r.2, clientsAfter := clients }

/-! ### WhatsApp channel (`WhatsAppChannel`, `src/channels/whatsapp.js`) -/

/-- Session id generation in `handleIncomingMessage`: `wa_` + sender. -/
def sessionIdOfSender (sender : List Char) : List Char :=
  'w' :: 'a' :: '_' :: sender

/-- Phone extraction in `send`: `sessionId.replace('wa_', '')` — a string
pattern, so only the first occurrence is replaced. -/
def phoneOfSessionId (sessionId : List Char) : List Char :=
  jsReplaceFirst sessionId ['w', 'a', '_'] []

/-! ### Concrete inputs used by witnesses and counterexamples -/

/-- Projection of a booking id out of a ToolResult. -/
def resultBookingId : ToolResult → Option String
  | ⟨_, .booked b _⟩ => some b.id
  | _ => none

/-- A clock state inside one fixed millisecond. -/
def c8State : ToolState := { now := 1700000000000 }

/-- First booking request. -/
def c8ArgsA : Args :=
  { date := "2026-10-20", time := "19:00", guests := 4, name := "Jane", phone := "0821234567" }

/-- Second, different booking request in the same millisecond. -/
def c8ArgsB : Args :=
  { date := "2026-10-21", time := "18:00", guests := 2, name := "Sipho", phone := "0837654321" }

/-- A schema-conformant `take_order` payload whose single item omits the
optional `price` field. -/
def c2Args : Args :=
  { items := [{ name := "Garlic Naan", quantity := 1, price := .absent }],
    customerName := some "Jane", customerPhone := some "0821234567" }

/-- A model double that always requests one valid `get_business_info` tool
call and produces no textual content (a pure tool-call response). -/
def c3Llm : Nat → Except JsThrown LMResponse :=
  fun _ => .ok { content := none, toolCalls := some [{ fnName := "get_business_info" }] }

/-- The response the `c3Llm` double always returns. -/
def c3Resp : LMResponse :=
  { content := none, toolCalls := some [{ fnName := "get_business_info" }] }

/-- Iterated inbound routing of the same session (`n` user messages). -/
def pumpInbound : Nat → SystemState → SystemState
  | 0, st => st
  | n + 1, st => pumpInbound n (routeMessage "whatsapp" "s" "hi" (some "s") 0 st)

/-- A conversation log of ten messages for one session. -/
def tenMessages : List HMsg :=
  (List.range 10).map (fun k => ⟨"user", some ("m" ++ toString k), k⟩)

/-- A conversations map holding exactly the ten-message session. -/
def c5Conversations : String → Option (List HMsg) :=
  fun q => if q = "wa_1" then some tenMessages else none

/-- An observer whose socket is OPEN but whose `send` throws. -/
def erroringObserver : Client := ⟨1, 1, true⟩

/-- An observer whose socket is OPEN and whose `send` succeeds. -/
def healthyObserver : Client := ⟨2, 1, false⟩

/-- A high-urgency complaint payload. -/
def c7Args : Args :=
  { customerName := some "Jane", customerPhone := some "0821234567",
    issue := "Food poisoning from last night", urgency := some "high" }

/-- A process state with the whatsapp channel registered. -/
def c9State : SystemState := { initialState with channels := ["whatsapp"] }

/-! ## Theorems -/

/-- C1 (counterexample): `execute("unknown_tool", {})` throws the *generic*
`Error` class (`genericError` models `new Error(...)`), identifiable only by
its message text — not a typed UnknownTool outcome. This refutes "yields a
typed/identifiable UnknownTool error, never a generic error" as stated. -/
theorem execute_unknown_tool_cex :
    execute "unknown_tool" {} {} =
      Except.error (JsThrown.genericError "Unknown tool: unknown_tool") := by
  decide

/-- C1 (amended): for every tool name outside the registered set, `execute`
throws the generic `new Error('Unknown tool: ' + name)` — never a normal
ToolResult, with the unknown name identifiable only via the message string. -/
theorem execute_unknown_tool_generic (toolName : String) (args : Args) (ts : ToolState)
    (h : toolName ∉ registeredToolNames) :
    execute toolName args ts =
      Except.error (JsThrown.genericError ("Unknown tool: " ++ toolName)) := by
  simp only [registeredToolNames, List.mem_cons, List.not_mem_nil, or_false] at h
  push_neg at h
  obtain ⟨h1, h2, h3, h4, h5, h6, h7, h8, h9, h10, h11⟩ := h
  simp [execute, h1, h2, h3, h4, h5, h6, h7, h8, h9, h10, h11]

/-- C1 (witness): the amended theorem applied at the concrete unregistered
name `unknown_tool`. -/
theorem execute_unknown_tool_generic_witness :
    "unknown_tool" ∉ registeredToolNames ∧
    execute "unknown_tool" {} {} =
      Except.error (JsThrown.genericError ("Unknown tool: " ++ "unknown_tool")) :=
  ⟨by decide, execute_unknown_tool_generic "unknown_tool" {} {} (by decide)⟩

/-- C2 (code bug): a `take_order` payload that conforms to the declared
schema (the item omits the optional `price` field) makes `execute` raise a
TypeError — `item.price.replace` dereferences `undefined` — instead of
returning a diagnostic ToolResult. -/
theorem take_order_conformant_args_raise :
    takeOrderArgsConformant c2Args = true ∧
    execute "take_order" c2Args {} =
      Except.error (JsThrown.typeError
        "Cannot read properties of undefined (reading \x27replace\x27)") := by
  decide

/-- C8 (code bug): two different bookings created within the same millisecond
receive the identical id `BK-1700000000000`, because ids are the bare
`Date.now()` value with a prefix and no counter. -/
theorem same_millisecond_booking_id_collision :
    c8ArgsA ≠ c8ArgsB ∧
    resultBookingId (createBooking c8ArgsA c8State).1 = some "BK-1700000000000" ∧
    resultBookingId (createBooking c8ArgsB (createBooking c8ArgsA c8State).2).1 =
      some "BK-1700000000000" := by
  decide

/-- C10: for a WhatsApp sender id that does not itself contain `wa_`, the
phone that `send` extracts from the inbound-generated session id `wa_`+sender
is exactly the original sender, so replies go back to the originator. -/
theorem whatsapp_session_roundtrip (sender : List Char)
    (h : listContainsSub sender ['w', 'a', '_'] = false) :
    phoneOfSessionId (sessionIdOfSender sender) = sender := by
  simp [phoneOfSessionId, sessionIdOfSender, jsReplaceFirst, List.isPrefixOf]

/-- C10 (witness): the round trip at the concrete sender `27821234567`. -/
theorem whatsapp_session_roundtrip_witness :
    listContainsSub "27821234567".data ['w', 'a', '_'] = false ∧
    phoneOfSessionId (sessionIdOfSender "27821234567".data) = "27821234567".data :=
  ⟨by decide, whatsapp_session_roundtrip "27821234567".data (by decide)⟩

/-- Helper: a client that is OPEN and does not error receives every
broadcast, whatever the rest of the observer set does. -/
theorem mem_broadcastRun (c : Client) (msg : String) :
    ∀ clients : List Client, c ∈ clients → c.readyState = 1 → c.sendFails = false →
      (c.cid, msg) ∈ (broadcastRun clients msg).1 := by
  intro clients
  induction clients with
  | nil => intro hmem; cases hmem
  | cons d rest ih =>
    intro hmem hopen hok
    rcases List.mem_cons.mp hmem with hd | hrest
    · subst hd
      simp [broadcastRun, hopen, hok]
    · have htail := ih hrest hopen hok
      by_cases h1 : d.readyState = 1 <;> by_cases h2 : d.sendFails <;>
        simp [broadcastRun, h1, h2, htail]

/-- C6 (amended): `broadcast` delivers the event to every OPEN, non-erroring
observer even when other observers error on send. -/
theorem broadcast_delivers_to_nonerroring (clients : List Client) (msg : String) (c : Client)
    (hmem : c ∈ clients) (hopen : c.readyState = 1) (hok : c.sendFails = false) :
    (c.cid, msg) ∈ (broadcast clients msg).delivered :=
  mem_broadcastRun c msg clients hmem hopen hok

/-- C6 (witness): with one erroring and one healthy observer connected, the
healthy observer still receives the event. -/
theorem broadcast_delivers_to_nonerroring_witness :
    healthyObserver ∈ [erroringObserver, healthyObserver] ∧
    healthyObserver.readyState = 1 ∧ healthyObserver.sendFails = false ∧
    (healthyObserver.cid, "ev") ∈ (broadcast [erroringObserver, healthyObserver] "ev").delivered :=
  ⟨by decide, by decide, by decide,
    broadcast_delivers_to_nonerroring [erroringObserver, healthyObserver] "ev"
      healthyObserver (by decide) (by decide) (by decide)⟩

/-- C6 (counterexample): the observer whose send throws is *not* dropped from
the observer set by `broadcast` — the catch only logs; removal happens only
in the socket close handler. This refutes "an observer that errors on send is
dropped from the observer set". -/
theorem broadcast_does_not_drop_erroring_cex :
    (broadcast [erroringObserver, healthyObserver] "ev").delivered = [(2, "ev")] ∧
    erroringObserver ∈ (broadcast [erroringObserver, healthyObserver] "ev").clientsAfter := by
  decide

/-- C4 (counterexample): the Gateway session registry's message log is *not*
capped — after 51 inbound messages the session holds 51 messages, exceeding
the claimed 50-message bound (only the runtime's conversation log is capped). -/
theorem gateway_log_unbounded_cex :
    ((pumpInbound 51 initialState).sessions "s").map (fun s => s.messages.length) = some 51 ∧
    50 < 51 := by
  constructor
  · decide
  · decide

/-- C4 (amended): the AgentRuntime conversation log is capped — after any
`saveToHistory` the session's log holds `min (previous + 2) 50` messages and
is a suffix (the newest entries) of the log with the new pair appended;
appending past the cap is not an error. -/
theorem saveToHistory_capped (conversations : String → Option (List HMsg))
    (sessionId userMessage : String) (assistantMessage : Option String) (now : Nat) :
    ∃ m, saveToHistory conversations sessionId userMessage assistantMessage now sessionId = some m ∧
      m.length ≤ 50 ∧
      m.length = min (((conversations sessionId).getD []).length + 2) 50 ∧
      m <:+ ((conversations sessionId).getD [] ++
        [⟨"user", some userMessage, now⟩, ⟨"assistant", assistantMessage, now⟩]) := by
  unfold saveToHistory mapUpdate
  simp only [if_pos rfl]
  set msgs1 := (conversations sessionId).getD [] ++
    [(⟨"user", some userMessage, now⟩ : HMsg), ⟨"assistant", assistantMessage, now⟩] with hmsgs1
  have hlen : msgs1.length = ((conversations sessionId).getD []).length + 2 := by
    simp [hmsgs1]
  by_cases hbig : 50 < msgs1.length
  · refine ⟨msgs1.drop (msgs1.length - 50), by simp [hbig], ?_, ?_, List.drop_suffix _ _⟩
    · simp [List.length_drop]; omega
    · simp [List.length_drop]; omega
  · refine ⟨msgs1, by simp [hbig], ?_, ?_, List.suffix_refl _⟩
    · omega
    · omega

/-- C5 (counterexample): `getConversationHistory` takes no limit parameter —
with a ten-message session log it returns all ten messages, so a requested
limit of `N = 3` is not honoured. This refutes "for every limit N it returns
at most N messages". -/
theorem recentHistory_ignores_limit_cex :
    ¬ (getConversationHistory c5Conversations "wa_1").length ≤ 3 := by
  decide

/-- C5 (amended): the limit is fixed at 10 in the source. The returned
history is the suffix of the most recent `min (length) 10` stored messages,
projected to role and content, in stored (oldest-first) order; being a pure
read it is unchanged by repetition without intervening appends. -/
theorem recentHistory_fixed_ten (conversations : String → Option (List HMsg))
    (sessionId : String) (msgs : List HMsg) (h : conversations sessionId = some msgs) :
    (getConversationHistory conversations sessionId).length ≤ 10 ∧
    (getConversationHistory conversations sessionId).length = min msgs.length 10 ∧
    getConversationHistory conversations sessionId <:+
      msgs.map (fun m => (⟨m.role, m.content⟩ : CtxMsg)) := by
  have e : getConversationHistory conversations sessionId
      = (msgs.drop (msgs.length - 10)).map (fun m => (⟨m.role, m.content⟩ : CtxMsg)) := by
    unfold getConversationHistory
    rw [h]
  rw [e]
  refine ⟨?_, ?_, ?_⟩
  · simp only [List.length_map, List.length_drop]
    omega
  · simp only [List.length_map, List.length_drop]
    omega
  · exact (List.drop_suffix _ _).map _

/-- C5 (witness): the amended theorem at the concrete ten-message session. -/
theorem recentHistory_fixed_ten_witness :
    c5Conversations "wa_1" = some tenMessages ∧
    (getConversationHistory c5Conversations "wa_1").length ≤ 10 ∧
    (getConversationHistory c5Conversations "wa_1").length = min tenMessages.length 10 ∧
    getConversationHistory c5Conversations "wa_1" <:+
      tenMessages.map (fun m => (⟨m.role, m.content⟩ : CtxMsg)) :=
  ⟨by decide, recentHistory_fixed_ten c5Conversations "wa_1" tenMessages (by decide)⟩

/-- Helper: a `get_business_info` call succeeds and only (re)loads config. -/
theorem execute_info_ok (tc : ToolCall) (h : tc.fnName = "get_business_info") (ts : ToolState) :
    execute tc.fnName tc.fnArguments ts =
      Except.ok (getBusinessInfo (loadBusinessConfig ts), loadBusinessConfig ts) := by
  simp [execute, h]

/-- Helper: executing a list of `get_business_info` calls never throws. -/
theorem execAll_info_ok (tcs : List ToolCall)
    (h : ∀ tc ∈ tcs, tc.fnName = "get_business_info") :
    ∀ ts, ∃ ts1, execAll tcs ts = (Except.ok (), ts1) := by
  induction tcs with
  | nil => intro ts; exact ⟨ts, rfl⟩
  | cons tc rest ih =>
    intro ts
    have htc : tc.fnName = "get_business_info" := h tc (by simp)
    have hrest : ∀ x ∈ rest, x.fnName = "get_business_info" :=
      fun x hx => h x (List.mem_cons_of_mem tc hx)
    obtain ⟨ts1, h1⟩ := ih hrest (loadBusinessConfig ts)
    refine ⟨ts1, ?_⟩
    unfold execAll
    rw [execute_info_ok tc htc ts]
    exact h1

/-- Helper: when every model response requests (valid, non-throwing) tool
calls, the while loop runs its full fuel: starting at round `count` with
`fuel = maxToolCalls - count` it performs `fuel` more rounds and one more
model call per round, ending on the content of the last response. -/
theorem runRounds_saturating (llm : Nat → Except JsThrown LMResponse) (resp : Nat → LMResponse)
    (hok : ∀ k, llm k = Except.ok (resp k))
    (htc : ∀ k, ∃ tcs, (resp k).toolCalls = some tcs ∧
      ∀ tc ∈ tcs, tc.fnName = "get_business_info") :
    ∀ fuel count ts, ∃ ts1,
      runRounds llm fuel ((resp count).toolCalls) ((resp count).content) (count + 1) count ts
        = ⟨Except.ok ((resp (count + fuel)).content), ts1, count + fuel + 1, count + fuel⟩ := by
  intro fuel
  induction fuel with
  | zero => intro count ts; exact ⟨ts, by simp [runRounds]⟩
  | succ fuel ih =>
    intro count ts
    obtain ⟨tcs, htcs, hnames⟩ := htc count
    obtain ⟨tsA, hA⟩ := execAll_info_ok tcs hnames ts
    obtain ⟨ts1, h1⟩ := ih (count + 1) tsA
    refine ⟨ts1, ?_⟩
    rw [htcs]
    unfold runRounds
    rw [hA, hok (count + 1)]
    have e1 : count + (fuel + 1) = count + 1 + fuel := by omega
    rw [e1]
    exact h1

/-- C3 (amended): against a model that always answers with (valid) tool
calls, a turn performs exactly `maxToolCalls` (5) tool rounds but issues
`maxToolCalls + 1` (6) model calls in total — the initial call plus one per
round — and finalizes with the content of the last (6th) model response. -/
theorem loop_bound_six_model_calls (llm : Nat → Except JsThrown LMResponse)
    (resp : Nat → LMResponse) (ts : ToolState)
    (hok : ∀ k, llm k = Except.ok (resp k))
    (htc : ∀ k, ∃ tcs, (resp k).toolCalls = some tcs ∧
      ∀ tc ∈ tcs, tc.fnName = "get_business_info") :
    (runTurn llm ts).rounds = maxToolCalls ∧
    (runTurn llm ts).modelCalls = maxToolCalls + 1 ∧
    (runTurn llm ts).result = Except.ok ((resp maxToolCalls).content) := by
  obtain ⟨ts1, h⟩ := runRounds_saturating llm resp hok htc maxToolCalls 0 ts
  simp only [Nat.zero_add] at h
  have e : runTurn llm ts =
      runRounds llm maxToolCalls ((resp 0).toolCalls) ((resp 0).content) 1 0 ts := by
    unfold runTurn
    rw [hok 0]
  rw [e, h]
  exact ⟨rfl, rfl, rfl⟩

/-- C3 (witness): the amended theorem at the concrete always-tool-calling
model double. -/
theorem loop_bound_six_model_calls_witness :
    (runTurn c3Llm {}).rounds = maxToolCalls ∧
    (runTurn c3Llm {}).modelCalls = maxToolCalls + 1 ∧
    (runTurn c3Llm {}).result = Except.ok c3Resp.content :=
  loop_bound_six_model_calls c3Llm (fun _ => c3Resp) {} (fun _ => rfl)
    (fun _ => ⟨[{ fnName := "get_business_info" }], rfl, by decide⟩)

/-- C3 (counterexample): with a model double that always requests a valid
tool call and produces no text, the turn issues 6 = `maxToolCalls + 1` model
calls — so the model *is* called a `maxToolCalls + 1`-th time — and the
final reply content is null, not non-empty text. This refutes "never calls
the model a maxToolCalls+1-th time" and "returns non-empty reply text". -/
theorem loop_bound_cex :
    (runTurn c3Llm {}).modelCalls = maxToolCalls + 1 ∧
    (runTurn c3Llm {}).result = Except.ok none := by
  decide

/-- C7: every `handle_complaint` invocation records a complaint with status
`open` and an assigned `CMPL-` id; with urgency `high` the response message
is the escalation-to-management notice (not the generic apology) and an
escalation is performed synchronously, before the ToolResult is returned. -/
theorem handleComplaint_contract (args : Args) (ts : ToolState) :
    (∃ c m, (handleComplaint args ts).1 = ⟨true, .complaintRec c m⟩ ∧
      c.status = "open" ∧ c.id = "CMPL-" ++ toString ts.now ∧
      (handleComplaint args ts).2.complaints = ts.complaints ++ [c]) ∧
    (args.urgency = some "high" →
      ∃ c e, (handleComplaint args ts).1 =
          ⟨true, .complaintRec c (escalationNoticeText args.customerPhone)⟩ ∧
        c.status = "open" ∧ c.id = "CMPL-" ++ toString ts.now ∧
        (handleComplaint args ts).2.complaints = ts.complaints ++ [c] ∧
        (handleComplaint args ts).2.escalationLog = ts.escalationLog ++ [e] ∧
        e.reason = "Customer complaint: " ++ args.issue ∧ e.status = "pending") := by
  constructor
  · refine ⟨{ id := "CMPL-" ++ toString ts.now, customerName := args.customerName,
              customerPhone := args.customerPhone, issue := args.issue,
              urgency := args.urgency.getD "medium", status := "open", createdAt := ts.now },
            (if args.urgency.getD "medium" = "high" then escalationNoticeText args.customerPhone
             else complaintAcknowledgementText), ?_, rfl, rfl, ?_⟩
    · simp [handleComplaint]
    · by_cases h : args.urgency.getD "medium" = "high" <;>
        simp [handleComplaint, escalate, h]
  · intro h
    have h' : args.urgency.getD "medium" = "high" := by rw [h]; rfl
    refine ⟨{ id := "CMPL-" ++ toString ts.now, customerName := args.customerName,
              customerPhone := args.customerPhone, issue := args.issue,
              urgency := "high", status := "open", createdAt := ts.now },
            { id := "ESC-" ++ toString ts.now, reason := "Customer complaint: " ++ args.issue,
              customerInfo := optStr args.customerName ++ " - " ++ optStr args.customerPhone,
              details := "Urgency: " ++ "high", status := "pending", createdAt := ts.now },
            ?_, rfl, rfl, ?_, ?_, rfl, rfl⟩ <;>
      simp [handleComplaint, escalate, h']

/-- C7 (witness): the contract at a concrete high-urgency complaint. -/
theorem handleComplaint_contract_witness :
    c7Args.urgency = some "high" ∧
    (∃ c e, (handleComplaint c7Args { now := 9 }).1 =
        ⟨true, .complaintRec c (escalationNoticeText c7Args.customerPhone)⟩ ∧
      c.status = "open" ∧ c.id = "CMPL-" ++ toString (9 : Nat) ∧
      (handleComplaint c7Args { now := 9 }).2.complaints = ([] : List Complaint) ++ [c] ∧
      (handleComplaint c7Args { now := 9 }).2.escalationLog = ([] : List Escalation) ++ [e] ∧
      e.reason = "Customer complaint: " ++ c7Args.issue ∧ e.status = "pending") :=
  ⟨rfl, (handleComplaint_contract c7Args { now := 9 }).2 rfl⟩

/-- C9: when the model call throws and no fallback succeeds, the turn
finalizes with the constant generic apology — independent of the error `e`,
so no internal error detail reaches the customer — the apology is delivered
through the registered channel, and the session log still holds the user's
original inbound message. -/
theorem provider_outage_apology (e : JsThrown) (ch sid msg : String)
    (senderName : Option String) (now : Nat) (st0 : SystemState)
    (hch : ch ∈ st0.channels) :
    ((handleMessage (fun _ => Except.error e) ch sid msg now
        (routeMessage ch sid msg senderName now st0)).sessions sid).isSome ∧
    (⟨"user", some msg, now⟩ : HMsg) ∈
      sessionLog (handleMessage (fun _ => Except.error e) ch sid msg now
        (routeMessage ch sid msg senderName now st0)) sid ∧
    (sessionLog (handleMessage (fun _ => Except.error e) ch sid msg now
        (routeMessage ch sid msg senderName now st0)) sid).getLast? =
      some ⟨"assistant", some apologyText, now⟩ ∧
    (handleMessage (fun _ => Except.error e) ch sid msg now
        (routeMessage ch sid msg senderName now st0)).outbox =
      st0.outbox ++ [(ch, sid, some apologyText)] := by
  cases hs : st0.sessions sid with
  | none =>
    refine ⟨?_, ?_, ?_, ?_⟩ <;>
      simp [sessionLog, handleMessage, runTurn, routeMessage, sendResponse,
        mapUpdate, hs, hch, List.getLast?_concat]
  | some s0 =>
    refine ⟨?_, ?_, ?_, ?_⟩ <;>
      simp [sessionLog, handleMessage, runTurn, routeMessage, sendResponse,
        mapUpdate, hs, hch, List.getLast?_concat]

/-- C9 (witness): the outage behaviour at a concrete state with the
whatsapp channel registered. -/
theorem provider_outage_apology_witness :
    "whatsapp" ∈ c9State.channels ∧
    (((handleMessage (fun _ => Except.error (JsThrown.genericError "ECONNREFUSED"))
        "whatsapp" "wa_1" "hi there" 7
        (routeMessage "whatsapp" "wa_1" "hi there" (some "1") 7 c9State)).sessions "wa_1").isSome ∧
    (⟨"user", some "hi there", 7⟩ : HMsg) ∈
      sessionLog (handleMessage (fun _ => Except.error (JsThrown.genericError "ECONNREFUSED"))
        "whatsapp" "wa_1" "hi there" 7
        (routeMessage "whatsapp" "wa_1" "hi there" (some "1") 7 c9State)) "wa_1" ∧
    (sessionLog (handleMessage (fun _ => Except.error (JsThrown.genericError "ECONNREFUSED"))
        "whatsapp" "wa_1" "hi there" 7
        (routeMessage "whatsapp" "wa_1" "hi there" (some "1") 7 c9State)) "wa_1").getLast? =
      some ⟨"assistant", some apologyText, 7⟩ ∧
    (handleMessage (fun _ => Except.error (JsThrown.genericError "ECONNREFUSED"))
        "whatsapp" "wa_1" "hi there" 7
        (routeMessage "whatsapp" "wa_1" "hi there" (some "1") 7 c9State)).outbox =
      c9State.outbox ++ [("whatsapp", "wa_1", some apologyText)]) :=
  ⟨by decide,
    provider_outage_apology (JsThrown.genericError "ECONNREFUSED") "whatsapp" "wa_1"
      "hi there" (some "1") 7 c9State (by decide)⟩

end Concierge
